import Mathlib

/-!
Verification of torchgan's boundary-equilibrium losses
(`torchgan/losses/boundaryequilibrium.py`) and classifier score
(`torchgan/metrics/classifierscore.py`) against their specification.

Scalar values are modelled as exact rationals (`ℚ`) for the loss controller
and as reals (`ℝ`) for the transcendental classifier-score computation.
Tensors are modelled as lists of scalars (rank-1) or lists of rows (rank-2);
torch reductions and elementwise operations become list operations.
-/

/-- Reduction modes accepted by the reduction helper.  The source passes the
strings `none`, `elementwise_mean`, `sum`. -/
inductive ReductionMode where
  | noReduction
  | elementwise_mean
  | sum
deriving DecidableEq, Repr

/-- Modelled from the spec: the repository's `torchgan.utils.reduce` helper is
imported by both source files but its module is not under `src/`.  Per the
spec's ReductionHelper contract (and the docstrings in the source): if `none`
no reduction is applied, if `elementwise_mean` the sum of the elements is
divided by the number of elements, if `sum` the output is summed.  A reduced
result is a singleton list (a 0-dimensional tensor). -/
def reduce {α : Type} [DivisionRing α] (x : List α) : ReductionMode → List α
  | ReductionMode.noReduction => x
  | ReductionMode.elementwise_mean => [x.sum / (x.length : α)]
  | ReductionMode.sum => [x.sum]

/-- State of `BoundaryEquilibriumGeneratorLoss`: only the configured
reduction (the generator loss keeps no other state). -/
structure BoundaryEquilibriumGeneratorLoss where
  reduction : ReductionMode
deriving DecidableEq, Repr

/-- Source `BoundaryEquilibriumGeneratorLoss.forward`:
`return reduce(dgz, self.reduction)`. -/
def BoundaryEquilibriumGeneratorLoss.forward
    (self : BoundaryEquilibriumGeneratorLoss) (dgz : List ℚ) : List ℚ :=
  reduce dgz self.reduction

/-- State of `BoundaryEquilibriumDiscriminatorLoss`: the configured reduction,
the balance coefficient `k`, the learning rate `lambd`, the goal bias `gamma`
and the diagnostic `convergence_metric` (absent until the first update). -/
structure BoundaryEquilibriumDiscriminatorLoss where
  reduction : ReductionMode
  k : ℚ
  lambd : ℚ
  gamma : ℚ
  convergence_metric : Option ℚ
deriving DecidableEq, Repr

/-- Source `BoundaryEquilibriumDiscriminatorLoss.forward`:
`loss_real = reduce(dx, self.reduction)`, `loss_fake = reduce(dgz, self.reduction)`,
`loss_total = loss_real - self.k * loss_fake`, returning
`(loss_total, loss_real, loss_fake)`.  The subtraction and scalar
multiplication are elementwise on tensors of equal shape. -/
def BoundaryEquilibriumDiscriminatorLoss.forward
    (self : BoundaryEquilibriumDiscriminatorLoss) (dx dgz : List ℚ) :
    List ℚ × List ℚ × List ℚ :=
  let loss_real := reduce dx self.reduction
  let loss_fake := reduce dgz self.reduction
  let loss_total := List.zipWith (· - ·) loss_real (loss_fake.map (self.k * ·))
  (loss_total, loss_real, loss_fake)

/-- Source `BoundaryEquilibriumDiscriminatorLoss.set_k`: `self.k = k`
(the Python default argument `k=0.0` is supplied by the caller here). -/
def BoundaryEquilibriumDiscriminatorLoss.set_k
    (self : BoundaryEquilibriumDiscriminatorLoss) (k : ℚ) :
    BoundaryEquilibriumDiscriminatorLoss :=
  { self with k := k }

/-- Source `BoundaryEquilibriumDiscriminatorLoss.update_k`:
`diff = self.gamma * loss_real - loss_fake`; `self.k += self.lambd * diff`;
`self.convergence_metric = loss_real + abs(diff)`; then clamp
`self.k` to `[0.0, 1.0]` by the trailing `if`/`elif`. -/
def BoundaryEquilibriumDiscriminatorLoss.update_k
    (self : BoundaryEquilibriumDiscriminatorLoss) (loss_real loss_fake : ℚ) :
    BoundaryEquilibriumDiscriminatorLoss :=
  let diff := self.gamma * loss_real - loss_fake
  let k₁ := self.k + self.lambd * diff
  let cm := loss_real + |diff|
  let k₂ := if k₁ < 0 then 0 else if k₁ > 1 then 1 else k₁
  { self with k := k₂, convergence_metric := some cm }

/-- Clamp to the unit interval, written exactly as the trailing
`if self.k < 0.0 ... elif self.k > 1.0 ...` of `update_k`. -/
def clampUnit (x : ℚ) : ℚ :=
  if x < 0 then 0 else if x > 1 then 1 else x

/-- Label-conditioning capability of a model (`label_type` in the source,
one of the strings `none`, `required`, `generated`). -/
inductive LabelType where
  | noLabel
  | required
  | generated
deriving DecidableEq, Repr

/-- A generator collaborator: its declared capability, the properties read by
`train_ops`, and its forward function.  A call without a label argument is
modelled as a call with `Option.none`. -/
structure GenModel (L : Type) where
  label_type : LabelType
  encoding_dims : ℕ
  num_classes : ℕ
  run : List ℚ → Option L → List ℚ

/-- A discriminator collaborator, modelled like `GenModel`. -/
structure DiscModel (L : Type) where
  label_type : LabelType
  run : List ℚ → Option L → List ℚ

/-- Observable actions taken by `train_ops`, in order: resetting the
optimizer's gradients, the discriminator call on the real inputs, the
generator call, the discriminator call on the detached fake batch (each with
the label argument it received), the backward pass and the optimizer step. -/
inductive Event (L : Type) where
  | zero_grad
  | disc_real (lbl : Option L)
  | gen_forward (lbl : Option L)
  | disc_fake (lbl : Option L)
  | backward
  | opt_step
deriving DecidableEq, Repr

/-- Failures of `train_ops`: the explicit `raise Exception` when labels are
missing but required; the Python `UnboundLocalError` from reading `label_gen`
when the generator never assigned it; and torch's error when `.backward()` or
`.item()` is applied to a non-scalar tensor. -/
inductive TrainError where
  | invalidLabelConfiguration
  | unboundLabelGen
  | nonScalarOutput
deriving DecidableEq, Repr

/-- Source `BoundaryEquilibriumDiscriminatorLoss.train_ops`, default path
(`override_train_ops is None`).  Randomness is made explicit: `noise` stands
for the `torch.randn(real_inputs.size(0), generator.encoding_dims)` draw and
`label_sample` for the `torch.randint(0, generator.num_classes, ...)` draw
(taken only when the generator's capability is `generated`, mirroring that
`label_gen` is only bound in that case).  The result is the ordered list of
observable events, the controller state after the call (unchanged when the
call fails), and either the returned `loss_total.item()` or the error. -/
def BoundaryEquilibriumDiscriminatorLoss.train_ops {L : Type} [DecidableEq L]
    (self : BoundaryEquilibriumDiscriminatorLoss)
    (generator : GenModel L) (discriminator : DiscModel L)
    (real_inputs noise : List ℚ) (label_sample : L) (labels : Option L) :
    List (Event L) × BoundaryEquilibriumDiscriminatorLoss × Except TrainError ℚ :=
  if labels = Option.none ∧
      (generator.label_type = LabelType.required ∨
       discriminator.label_type = LabelType.required) then
    ([], self, Except.error TrainError.invalidLabelConfiguration)
  else
    let label_gen : Option L :=
      if generator.label_type = LabelType.generated then some label_sample
      else Option.none
    let dxArg : Except TrainError (Option L) :=
      match discriminator.label_type with
      | LabelType.noLabel => Except.ok Option.none
      | LabelType.required => Except.ok labels
      | LabelType.generated =>
        match label_gen with
        | some lg => Except.ok (some lg)
        | Option.none => Except.error TrainError.unboundLabelGen
    match dxArg with
    | Except.error e => ([Event.zero_grad], self, Except.error e)
    | Except.ok dxLbl =>
      let dx := discriminator.run real_inputs dxLbl
      let fakeLbl : Option L :=
        match generator.label_type with
        | LabelType.noLabel => Option.none
        | LabelType.required => labels
        | LabelType.generated => label_gen
      let fake := generator.run noise fakeLbl
      let dgzLbl : Option L :=
        if discriminator.label_type = LabelType.noLabel then Option.none
        else if generator.label_type = LabelType.generated then label_gen
        else labels
      let dgz := discriminator.run fake dgzLbl
      let res := self.forward dx dgz
      let events := [Event.zero_grad, Event.disc_real dxLbl,
                     Event.gen_forward fakeLbl, Event.disc_fake dgzLbl]
      match res with
      | ([lt], [lr], [lf]) =>
        (events ++ [Event.backward, Event.opt_step],
         self.update_k lr lf, Except.ok lt)
      | _ => (events, self, Except.error TrainError.nonScalarOutput)

/-- Signature of an `override_train_ops` hook: it receives the controller
itself plus the same arguments as the default algorithm. -/
def OverrideTrainOps (L : Type) : Type :=
  BoundaryEquilibriumDiscriminatorLoss → GenModel L → DiscModel L →
    List ℚ → List ℚ → L → Option L →
    List (Event L) × BoundaryEquilibriumDiscriminatorLoss × Except TrainError ℚ

/-- The dispatch at the top of the source `train_ops`: when
`self.override_train_ops is not None` it fully replaces the default
algorithm, otherwise the default path runs. -/
def trainOpsWithOverride {L : Type} [DecidableEq L]
    (self : BoundaryEquilibriumDiscriminatorLoss)
    (override_train_ops : Option (OverrideTrainOps L))
    (generator : GenModel L) (discriminator : DiscModel L)
    (real_inputs noise : List ℚ) (label_sample : L) (labels : Option L) :
    List (Event L) × BoundaryEquilibriumDiscriminatorLoss × Except TrainError ℚ :=
  match override_train_ops with
  | some f => f self generator discriminator real_inputs noise label_sample labels
  | Option.none =>
    self.train_ops generator discriminator real_inputs noise label_sample labels

/-- Claim C1: for every controller state with `k` in `[0,1]` and positive
`lambd`, one `update_k` call sets `diff = gamma * loss_real - loss_fake`,
sets `k` to the old `k + lambd * diff` clamped to `[0,1]`, sets
`convergence_metric` to `loss_real + |diff|`, and the resulting `k` lies in
`[0,1]`. -/
theorem update_k_spec (s : BoundaryEquilibriumDiscriminatorLoss)
    (loss_real loss_fake : ℚ) (hk0 : 0 ≤ s.k) (hk1 : s.k ≤ 1)
    (hl : 0 < s.lambd) :
    (s.update_k loss_real loss_fake).k =
      clampUnit (s.k + s.lambd * (s.gamma * loss_real - loss_fake)) ∧
    (s.update_k loss_real loss_fake).convergence_metric =
      some (loss_real + |s.gamma * loss_real - loss_fake|) ∧
    0 ≤ (s.update_k loss_real loss_fake).k ∧
    (s.update_k loss_real loss_fake).k ≤ 1 := by
  refine ⟨rfl, rfl, ?_, ?_⟩ <;>
    simp only [BoundaryEquilibriumDiscriminatorLoss.update_k] <;>
    split_ifs with h₁ h₂ <;> linarith

/-- Witness for `update_k_spec` at a concrete state with `k = 0`,
`lambd = 1 > 0`, `gamma = 1` and losses `2`, `5`. -/
theorem update_k_spec_witness :
    (0:ℚ) ≤ (⟨ReductionMode.elementwise_mean, 0, 1, 1, Option.none⟩ :
        BoundaryEquilibriumDiscriminatorLoss).k ∧
    (⟨ReductionMode.elementwise_mean, 0, 1, 1, Option.none⟩ :
        BoundaryEquilibriumDiscriminatorLoss).k ≤ 1 ∧
    ((BoundaryEquilibriumDiscriminatorLoss.update_k
        ⟨ReductionMode.elementwise_mean, 0, 1, 1, Option.none⟩ 2 5).k =
      clampUnit (0 + 1 * (1 * 2 - 5)) ∧
    (BoundaryEquilibriumDiscriminatorLoss.update_k
        ⟨ReductionMode.elementwise_mean, 0, 1, 1, Option.none⟩ 2 5).convergence_metric =
      some (2 + |1 * 2 - 5|) ∧
    0 ≤ (BoundaryEquilibriumDiscriminatorLoss.update_k
        ⟨ReductionMode.elementwise_mean, 0, 1, 1, Option.none⟩ 2 5).k ∧
    (BoundaryEquilibriumDiscriminatorLoss.update_k
        ⟨ReductionMode.elementwise_mean, 0, 1, 1, Option.none⟩ 2 5).k ≤ 1) :=
  ⟨by norm_num, by norm_num,
    update_k_spec ⟨ReductionMode.elementwise_mean, 0, 1, 1, Option.none⟩ 2 5
      (by norm_num) (by norm_num) (by norm_num)⟩

/-- Claim C2: the discriminator-loss `forward` returns
`(loss_total, loss_real, loss_fake)` with `loss_real = reduce dx`,
`loss_fake = reduce dgz` and `loss_total = loss_real - k * loss_fake`
(elementwise); it reads only `k` and the configured reduction and mutates
nothing, so two controllers agreeing on those give identical triples. -/
theorem forward_formula_and_pure
    (s₁ s₂ : BoundaryEquilibriumDiscriminatorLoss) (dx dgz : List ℚ)
    (hk : s₁.k = s₂.k) (hr : s₁.reduction = s₂.reduction) :
    s₁.forward dx dgz = s₂.forward dx dgz ∧
    (s₁.forward dx dgz).2.1 = reduce dx s₁.reduction ∧
    (s₁.forward dx dgz).2.2 = reduce dgz s₁.reduction ∧
    (s₁.forward dx dgz).1 =
      List.zipWith (· - ·) (reduce dx s₁.reduction)
        ((reduce dgz s₁.reduction).map (s₁.k * ·)) := by
  refine ⟨?_, rfl, rfl, rfl⟩
  simp only [BoundaryEquilibriumDiscriminatorLoss.forward, hk, hr]

/-- Witness for `forward_formula_and_pure` at two states that agree on `k`
and the reduction but differ in `lambd`, `gamma` and `convergence_metric`. -/
theorem forward_formula_and_pure_witness :
    (⟨ReductionMode.elementwise_mean, 1, 2, 3, Option.none⟩ :
        BoundaryEquilibriumDiscriminatorLoss).k =
      (⟨ReductionMode.elementwise_mean, 1, 5, 7, some 0⟩ :
        BoundaryEquilibriumDiscriminatorLoss).k ∧
    (⟨ReductionMode.elementwise_mean, 1, 2, 3, Option.none⟩ :
        BoundaryEquilibriumDiscriminatorLoss).reduction =
      (⟨ReductionMode.elementwise_mean, 1, 5, 7, some 0⟩ :
        BoundaryEquilibriumDiscriminatorLoss).reduction ∧
    BoundaryEquilibriumDiscriminatorLoss.forward
        ⟨ReductionMode.elementwise_mean, 1, 2, 3, Option.none⟩ [1, 3] [2, 2] =
      BoundaryEquilibriumDiscriminatorLoss.forward
        ⟨ReductionMode.elementwise_mean, 1, 5, 7, some 0⟩ [1, 3] [2, 2] :=
  ⟨rfl, rfl,
    (forward_formula_and_pure
      ⟨ReductionMode.elementwise_mean, 1, 2, 3, Option.none⟩
      ⟨ReductionMode.elementwise_mean, 1, 5, 7, some 0⟩
      [1, 3] [2, 2] rfl rfl).1⟩

/-- Claim C5: `set_k v` followed by a read of `k` yields exactly `v`, for
every rational `v`, with no clamping on this direct override path (the
universal quantifier covers values outside `[0,1]`). -/
theorem set_k_exact (s : BoundaryEquilibriumDiscriminatorLoss) (v : ℚ) :
    (s.set_k v).k = v :=
  rfl

/-- Claim C6: with mean reduction, `k = 0`, `gamma = 3/4`, `lambd = 1/1000`,
`dx = [0.8, 0.6]` and `dgz = [0.3, 0.5]`, `forward` returns
`loss_real = 0.7`, `loss_fake = 0.4`, `loss_total = 0.7`, and the subsequent
`update_k` yields `diff = 0.125`, `k = 0.000125` and
`convergence_metric = 0.825`, in exact rational arithmetic. -/
theorem began_worked_example :
    (3/4 : ℚ) * (7/10) - 2/5 = 1/8 ∧
    BoundaryEquilibriumDiscriminatorLoss.forward
        ⟨ReductionMode.elementwise_mean, 0, 1/1000, 3/4, Option.none⟩
        [8/10, 6/10] [3/10, 5/10] = ([7/10], [7/10], [4/10]) ∧
    (BoundaryEquilibriumDiscriminatorLoss.update_k
        ⟨ReductionMode.elementwise_mean, 0, 1/1000, 3/4, Option.none⟩
        (7/10) (4/10)).k = 125/1000000 ∧
    (BoundaryEquilibriumDiscriminatorLoss.update_k
        ⟨ReductionMode.elementwise_mean, 0, 1/1000, 3/4, Option.none⟩
        (7/10) (4/10)).convergence_metric = some (825/1000) := by
  refine ⟨by norm_num, ?_, ?_, ?_⟩ <;>
    norm_num [BoundaryEquilibriumDiscriminatorLoss.forward,
      BoundaryEquilibriumDiscriminatorLoss.update_k, reduce, abs]

/-- Claim C9: the generator loss under mean reduction applied to an all-equal
tensor of value `c` over `N ≥ 1` samples returns exactly `[c]`, independent
of `N`; being a plain function of its input it has no side effects. -/
theorem generator_loss_mean_constant (l : BoundaryEquilibriumGeneratorLoss)
    (hred : l.reduction = ReductionMode.elementwise_mean)
    (N : ℕ) (hN : 1 ≤ N) (c : ℚ) :
    l.forward (List.replicate N c) = [c] := by
  have hNne : (N : ℚ) ≠ 0 := Nat.cast_ne_zero.mpr (by omega)
  simp only [BoundaryEquilibriumGeneratorLoss.forward, hred, reduce,
    List.sum_replicate, List.length_replicate, nsmul_eq_mul]
  rw [mul_comm, mul_div_assoc, div_self hNne, mul_one]

/-- Witness for `generator_loss_mean_constant` with `N = 3`, `c = 2`. -/
theorem generator_loss_mean_constant_witness :
    (⟨ReductionMode.elementwise_mean⟩ :
        BoundaryEquilibriumGeneratorLoss).reduction =
      ReductionMode.elementwise_mean ∧
    1 ≤ 3 ∧
    BoundaryEquilibriumGeneratorLoss.forward ⟨ReductionMode.elementwise_mean⟩
        (List.replicate 3 (2 : ℚ)) = [2] :=
  ⟨rfl, by decide,
    generator_loss_mean_constant ⟨ReductionMode.elementwise_mean⟩ rfl 3
      (by decide) 2⟩

/-- Claim C3: when labels are absent and the generator or the discriminator
declares the `required` capability, the default `train_ops` path fails with
the invalid-label-configuration error before any computation proceeds: no
event is emitted (so the optimizer is never invoked) and the controller
state, in particular `k` and `convergence_metric`, is returned unchanged. -/
theorem train_ops_missing_labels {L : Type} [DecidableEq L]
    (s : BoundaryEquilibriumDiscriminatorLoss) (g : GenModel L) (d : DiscModel L)
    (real_inputs noise : List ℚ) (label_sample : L)
    (hreq : g.label_type = LabelType.required ∨
      d.label_type = LabelType.required) :
    s.train_ops g d real_inputs noise label_sample Option.none =
      ([], s, Except.error TrainError.invalidLabelConfiguration) := by
  simp only [BoundaryEquilibriumDiscriminatorLoss.train_ops]
  rw [if_pos ⟨trivial, hreq⟩]

/-- Witness for `train_ops_missing_labels`: a `required` generator, a
label-free discriminator and absent labels. -/
theorem train_ops_missing_labels_witness :
    ((⟨LabelType.required, 4, 3, fun n _ => n⟩ : GenModel ℕ).label_type =
        LabelType.required ∨
      (⟨LabelType.noLabel, fun t _ => t⟩ : DiscModel ℕ).label_type =
        LabelType.required) ∧
    BoundaryEquilibriumDiscriminatorLoss.train_ops (L := ℕ)
        ⟨ReductionMode.elementwise_mean, 0, 1, 1, Option.none⟩
        ⟨LabelType.required, 4, 3, fun n _ => n⟩
        ⟨LabelType.noLabel, fun t _ => t⟩ [1] [1] 0 Option.none =
      ([], ⟨ReductionMode.elementwise_mean, 0, 1, 1, Option.none⟩,
        Except.error TrainError.invalidLabelConfiguration) :=
  ⟨Or.inl rfl,
    train_ops_missing_labels ⟨ReductionMode.elementwise_mean, 0, 1, 1, Option.none⟩
      ⟨LabelType.required, 4, 3, fun n _ => n⟩ ⟨LabelType.noLabel, fun t _ => t⟩
      [1] [1] 0 (Or.inl rfl)⟩

/-- Claim C4: in a completed default `train_ops` call, the discriminator call
on the detached fake batch receives no label when the discriminator's
capability is `none`; otherwise, when the generator's capability is
`generated`, it receives the very sampled label that also conditioned the
generator; and in every other case it receives the ground-truth labels. -/
theorem train_ops_dgz_dispatch {L : Type} [DecidableEq L]
    (s : BoundaryEquilibriumDiscriminatorLoss) (g : GenModel L) (d : DiscModel L)
    (real_inputs noise : List ℚ) (label_sample : L) (labels : Option L)
    (hok : ∃ v, (s.train_ops g d real_inputs noise label_sample labels).2.2 =
      Except.ok v) :
    (d.label_type = LabelType.noLabel →
      Event.disc_fake Option.none ∈
        (s.train_ops g d real_inputs noise label_sample labels).1) ∧
    (d.label_type ≠ LabelType.noLabel → g.label_type = LabelType.generated →
      Event.disc_fake (some label_sample) ∈
        (s.train_ops g d real_inputs noise label_sample labels).1 ∧
      Event.gen_forward (some label_sample) ∈
        (s.train_ops g d real_inputs noise label_sample labels).1) ∧
    (d.label_type ≠ LabelType.noLabel → g.label_type ≠ LabelType.generated →
      Event.disc_fake labels ∈
        (s.train_ops g d real_inputs noise label_sample labels).1) := by
  obtain ⟨v, hv⟩ := hok
  rcases hd : d.label_type <;> rcases hg : g.label_type <;>
    rcases labels with _ | lab <;>
    simp [BoundaryEquilibriumDiscriminatorLoss.train_ops, hd, hg] at hv ⊢ <;>
    split <;> simp

/-- Witness for `train_ops_dgz_dispatch`: a successful run with a `generated`
generator and a `generated` discriminator, checking that the fake-batch
discriminator call and the generator call share the sampled label `5`. -/
theorem train_ops_dgz_dispatch_witness :
    (∃ v, (BoundaryEquilibriumDiscriminatorLoss.train_ops (L := ℕ)
        ⟨ReductionMode.elementwise_mean, 0, 1, 1, Option.none⟩
        ⟨LabelType.generated, 4, 3, fun n _ => n⟩
        ⟨LabelType.generated, fun t _ => t⟩ [2, 4] [6, 6] 5 Option.none).2.2 =
      Except.ok v) ∧
    ((⟨LabelType.generated, fun t _ => t⟩ : DiscModel ℕ).label_type ≠
        LabelType.noLabel →
      (⟨LabelType.generated, 4, 3, fun n _ => n⟩ : GenModel ℕ).label_type =
        LabelType.generated →
      Event.disc_fake (some 5) ∈
        (BoundaryEquilibriumDiscriminatorLoss.train_ops (L := ℕ)
          ⟨ReductionMode.elementwise_mean, 0, 1, 1, Option.none⟩
          ⟨LabelType.generated, 4, 3, fun n _ => n⟩
          ⟨LabelType.generated, fun t _ => t⟩ [2, 4] [6, 6] 5 Option.none).1 ∧
      Event.gen_forward (some 5) ∈
        (BoundaryEquilibriumDiscriminatorLoss.train_ops (L := ℕ)
          ⟨ReductionMode.elementwise_mean, 0, 1, 1, Option.none⟩
          ⟨LabelType.generated, 4, 3, fun n _ => n⟩
          ⟨LabelType.generated, fun t _ => t⟩ [2, 4] [6, 6] 5 Option.none).1) :=
  ⟨⟨3, by
      simp [BoundaryEquilibriumDiscriminatorLoss.train_ops,
        BoundaryEquilibriumDiscriminatorLoss.forward, reduce]
      norm_num⟩,
    (train_ops_dgz_dispatch
      ⟨ReductionMode.elementwise_mean, 0, 1, 1, Option.none⟩
      ⟨LabelType.generated, 4, 3, fun n _ => n⟩
      ⟨LabelType.generated, fun t _ => t⟩ [2, 4] [6, 6] 5 Option.none
      ⟨3, by
        simp [BoundaryEquilibriumDiscriminatorLoss.train_ops,
          BoundaryEquilibriumDiscriminatorLoss.forward, reduce]
        norm_num⟩).2.1⟩

/-- Claim C10 (amended): when the discriminator's capability is `generated`
but the generator's is not, and the required-label precondition does not
already reject the call (labels are present whenever the generator requires
them), the `dx` computation reads the never-assigned `label_gen` and the step
fails with the unbound-local error right after the gradient reset: no model
is called, no loss is computed, and the controller state is unchanged. -/
theorem train_ops_unbound_label_gen {L : Type} [DecidableEq L]
    (s : BoundaryEquilibriumDiscriminatorLoss) (g : GenModel L) (d : DiscModel L)
    (real_inputs noise : List ℚ) (label_sample : L) (labels : Option L)
    (hd : d.label_type = LabelType.generated)
    (hg : g.label_type ≠ LabelType.generated)
    (hpre : ¬(labels = Option.none ∧ g.label_type = LabelType.required)) :
    s.train_ops g d real_inputs noise label_sample labels =
      ([Event.zero_grad], s, Except.error TrainError.unboundLabelGen) := by
  rcases hgt : g.label_type <;> rcases labels with _ | lab <;>
    simp_all [BoundaryEquilibriumDiscriminatorLoss.train_ops, hd]

/-- Counterexample to claim C10 as stated: with a `required` generator, a
`generated` discriminator and absent labels, the step does fail, but through
the missing-labels check (before the gradient reset), not by dereferencing
the unbound `label_gen` in the `dx` computation. -/
theorem train_ops_unbound_claim_counterexample :
    BoundaryEquilibriumDiscriminatorLoss.train_ops (L := ℕ)
        ⟨ReductionMode.elementwise_mean, 0, 1, 1, Option.none⟩
        ⟨LabelType.required, 4, 3, fun n _ => n⟩
        ⟨LabelType.generated, fun t _ => t⟩ [1] [1] 0 Option.none =
      ([], ⟨ReductionMode.elementwise_mean, 0, 1, 1, Option.none⟩,
        Except.error TrainError.invalidLabelConfiguration) ∧
    (BoundaryEquilibriumDiscriminatorLoss.train_ops (L := ℕ)
        ⟨ReductionMode.elementwise_mean, 0, 1, 1, Option.none⟩
        ⟨LabelType.required, 4, 3, fun n _ => n⟩
        ⟨LabelType.generated, fun t _ => t⟩ [1] [1] 0 Option.none).2.2 ≠
      Except.error TrainError.unboundLabelGen := by
  constructor
  · rfl
  · simp [BoundaryEquilibriumDiscriminatorLoss.train_ops]

/-- Witness for `train_ops_unbound_label_gen`: a label-free generator paired
with a `generated` discriminator. -/
theorem train_ops_unbound_label_gen_witness :
    (⟨LabelType.generated, fun t _ => t⟩ : DiscModel ℕ).label_type =
      LabelType.generated ∧
    (⟨LabelType.noLabel, 4, 3, fun n _ => n⟩ : GenModel ℕ).label_type ≠
      LabelType.generated ∧
    ¬((Option.none : Option ℕ) = Option.none ∧
      (⟨LabelType.noLabel, 4, 3, fun n _ => n⟩ : GenModel ℕ).label_type =
        LabelType.required) ∧
    BoundaryEquilibriumDiscriminatorLoss.train_ops (L := ℕ)
        ⟨ReductionMode.elementwise_mean, 0, 1, 1, Option.none⟩
        ⟨LabelType.noLabel, 4, 3, fun n _ => n⟩
        ⟨LabelType.generated, fun t _ => t⟩ [1] [1] 0 Option.none =
      ([Event.zero_grad], ⟨ReductionMode.elementwise_mean, 0, 1, 1, Option.none⟩,
        Except.error TrainError.unboundLabelGen) :=
  ⟨rfl, by decide, by decide,
    train_ops_unbound_label_gen
      ⟨ReductionMode.elementwise_mean, 0, 1, 1, Option.none⟩
      ⟨LabelType.noLabel, 4, 3, fun n _ => n⟩
      ⟨LabelType.generated, fun t _ => t⟩ [1] [1] 0 Option.none
      rfl (by decide) (by decide)⟩

/-- Source `F.softmax(x, dim=1)` applied to one row of logits:
`softmax(r)[c] = exp(r[c]) / sum_j exp(r[j])`. -/
noncomputable def softmax (r : List ℝ) : List ℝ :=
  r.map (fun v => Real.exp v / (r.map Real.exp).sum)

/-- Source `F.log_softmax(x, dim=1)` applied to one row of logits:
`log_softmax(r)[c] = r[c] - log (sum_j exp(r[j]))`. -/
noncomputable def log_softmax (r : List ℝ) : List ℝ :=
  r.map (fun v => v - Real.log ((r.map Real.exp).sum))

/-- Source `ClassifierScore.calculate_score` on a rank-2 logit batch `x`
(a list of rows): `p = F.softmax(x, dim=1)` rowwise;
`q = torch.mean(p, dim=0)` columnwise (indexing columns `0..C-1` where `C`
is the row width); `kl = torch.sum(p * (F.log_softmax(x, dim=1)
- torch.log(q)), dim=1)` with `log q` broadcast across rows; the result is
`torch.exp(reduce(kl, 'elementwise_mean'))`, a 0-dimensional tensor whose
scalar value is extracted here with `headD`. -/
noncomputable def calculate_score (x : List (List ℝ)) : ℝ :=
  let p := x.map softmax
  let q := (List.range ((p.headD []).length)).map
      (fun c => (p.map (fun row => row.getD c 0)).sum / (p.length : ℝ))
  let kl := List.zipWith
      (fun prow lrow =>
        (List.zipWith (· * ·) prow
          (List.zipWith (· - ·) lrow (q.map Real.log))).sum)
      p (x.map log_softmax)
  ((reduce kl ReductionMode.elementwise_mean).map Real.exp).headD 0

/-- The score formula exactly as the spec words it, over an `N × C` matrix of
logits given as a function: `p = softmax` along the class dimension,
`q = mean of p` along the batch dimension, per-sample
`kl[i] = sum_c p[i,c] * (log_softmax(x)[i,c] - log q[c])`, and the score is
`exp(mean(kl))`. -/
noncomputable def classifierScoreSpec (N C : ℕ) (f : Fin N → Fin C → ℝ) : ℝ :=
  let p : Fin N → Fin C → ℝ :=
    fun i c => Real.exp (f i c) / ∑ j, Real.exp (f i j)
  let q : Fin C → ℝ := fun c => (∑ i, p i c) / N
  let kl : Fin N → ℝ := fun i =>
    ∑ c, p i c * ((f i c - Real.log (∑ j, Real.exp (f i j))) - Real.log (q c))
  Real.exp ((∑ i, kl i) / N)

lemma zipWith_ofFn {α β γ : Type} {n : ℕ} (g : α → β → γ)
    (f₁ : Fin n → α) (f₂ : Fin n → β) :
    List.zipWith g (List.ofFn f₁) (List.ofFn f₂) =
      List.ofFn (fun i => g (f₁ i) (f₂ i)) := by
  apply List.ext_getElem <;> simp

lemma rangeMap_eq_ofFn {α : Type} (n : ℕ) (h : ℕ → α) :
    (List.range n).map h = List.ofFn (fun i : Fin n => h i.val) := by
  apply List.ext_getElem <;> simp

lemma getD_ofFn {α : Type} {n : ℕ} (g : Fin n → α) (c : Fin n) (d : α) :
    (List.ofFn g).getD c.val d = g c := by
  rw [List.getD_eq_getElem]
  · simp
  · simp [c.isLt]

lemma headD_ofFn_succ {α : Type} {n : ℕ} (g : Fin (n + 1) → α) (d : α) :
    (List.ofFn g).headD d = g 0 := by
  rw [List.ofFn_succ]
  rfl

lemma softmax_ofFn {n : ℕ} (g : Fin n → ℝ) :
    softmax (List.ofFn g) =
      List.ofFn (fun c => Real.exp (g c) / ∑ j, Real.exp (g j)) := by
  simp [softmax, List.map_ofFn, Function.comp_def, List.sum_ofFn]

lemma log_softmax_ofFn {n : ℕ} (g : Fin n → ℝ) :
    log_softmax (List.ofFn g) =
      List.ofFn (fun c => g c - Real.log (∑ j, Real.exp (g j))) := by
  simp [log_softmax, List.map_ofFn, Function.comp_def, List.sum_ofFn]

lemma calculate_score_ofFn (N C : ℕ) (f : Fin N → Fin C → ℝ) :
    calculate_score (List.ofFn (fun i => List.ofFn (f i))) =
      classifierScoreSpec N C f := by
  cases N with
  | zero =>
    simp [calculate_score, classifierScoreSpec, reduce]
  | succ n =>
    simp only [calculate_score, classifierScoreSpec, List.map_ofFn,
      Function.comp_def, softmax_ofFn, log_softmax_ofFn, headD_ofFn_succ,
      List.length_ofFn, rangeMap_eq_ofFn, getD_ofFn, List.sum_ofFn,
      zipWith_ofFn, reduce, List.length_zipWith, Nat.min_self,
      List.headD_cons, List.map_cons]

/-- Claim C7: on every rank-2 logit batch of shape `(N, C)` the
score-calculation operation returns
`exp(mean_i (sum_c p[i,c] * (log_softmax(x)[i,c] - log q[c])))` with
`p = softmax(x)` along the class dimension and `q = mean(p)` along the batch
dimension, as the spec states. -/
theorem calculate_score_matches_spec (N C : ℕ) (f : Fin N → Fin C → ℝ) :
    calculate_score (List.ofFn (fun i => List.ofFn (f i))) =
      classifierScoreSpec N C f :=
  calculate_score_ofFn N C f

/-- A one-hot logit row of width `C` with the `1` in position `j`. -/
noncomputable def oneHot (C : ℕ) (j : Fin C) : List ℝ :=
  List.ofFn (fun c => if c = j then (1 : ℝ) else 0)

lemma classifierScoreSpec_const (N C : ℕ) (hC : 0 < C) (g : Fin C → ℝ) :
    classifierScoreSpec N C (fun _ => g) = 1 := by
  rcases Nat.eq_zero_or_pos N with hN | hN
  · subst hN
    simp [classifierScoreSpec]
  · have hNe : (N : ℝ) ≠ 0 := Nat.cast_ne_zero.mpr (by omega)
    have : Nonempty (Fin C) := ⟨⟨0, hC⟩⟩
    have hS : (0 : ℝ) < ∑ j, Real.exp (g j) :=
      Finset.sum_pos (fun _ _ => Real.exp_pos _) Finset.univ_nonempty
    simp only [classifierScoreSpec]
    have hq : ∀ c : Fin C,
        (∑ _i : Fin N, Real.exp (g c) / ∑ j, Real.exp (g j)) / (N : ℝ) =
          Real.exp (g c) / ∑ j, Real.exp (g j) := by
      intro c
      rw [Finset.sum_const, Finset.card_univ, Fintype.card_fin, nsmul_eq_mul,
        mul_comm, mul_div_assoc, div_self hNe, mul_one]
    have hterm : ∀ i : Fin N, (∑ c : Fin C,
        (Real.exp (g c) / ∑ j, Real.exp (g j)) *
          ((g c - Real.log (∑ j, Real.exp (g j))) -
            Real.log ((∑ _i : Fin N,
              Real.exp (g c) / ∑ j, Real.exp (g j)) / (N : ℝ)))) = 0 := by
      intro i
      refine Finset.sum_eq_zero (fun c _ => ?_)
      rw [hq c, Real.log_div (Real.exp_ne_zero _) (ne_of_gt hS),
        Real.log_exp, sub_self, mul_zero]
    rw [Finset.sum_congr rfl (fun i _ => hterm i), Finset.sum_const,
      smul_zero, zero_div, Real.exp_zero]

/-- Claim C8: on a batch whose `N` rows are all the identical one-hot logit
vector, the score-calculation operation returns exactly `1`: every sample's
predicted distribution equals the batch marginal, each per-sample KL term is
zero, and `exp 0 = 1`. -/
theorem calculate_score_onehot (N C : ℕ) (j : Fin C) :
    calculate_score (List.replicate N (oneHot C j)) = 1 := by
  have hrep : List.replicate N (oneHot C j) =
      List.ofFn (fun _ : Fin N =>
        List.ofFn (fun c => if c = j then (1 : ℝ) else 0)) :=
    (List.ofFn_const N _).symm
  rw [hrep, calculate_score_ofFn]
  exact classifierScoreSpec_const N C j.pos _
